import Mathlib

/-!
Verification of the pointzerver Input Session & Platform Event Simulator.

This file shallowly embeds the session-state logic of the macOS backend
(`src/input/macos.rs`, the backend that implements drag batching and
double-click classification) together with the key/modifier handling that is
shared verbatim by all three backends, the command wire model
(`src/domain/models/command.rs`), and the dispatcher loop body
(`src/features/command/command_service.rs`).

Modelling conventions:
- `f64` coordinates and deltas are modelled as `ℚ` (the operations used are
  addition, halving of the fixed fallback dimensions, and comparison with 0,
  all exact).
- `std::time::Instant` is modelled as a `ℕ` timestamp in milliseconds; the
  current time is an explicit `now` parameter. `Duration::from_millis` values
  become the corresponding `ℕ` constants, and `now.duration_since t` becomes
  truncated subtraction `now - t` (well-behaved since the code only ever
  measures a later instant against an earlier one).
- Functions that only mutate state and emit events through `send_event` /
  `CGEventPost` are modelled as pure functions returning the new state
  together with the list of native events emitted, in emission order,
  describing the successful execution (every injection succeeds).  Where an
  injection failure is itself the subject of a claim (the drag-flush path),
  a fallible variant additionally threads explicit `Bool` parameters, one per
  potentially-failing native call, and returns a success flag; mutations
  performed before the failing call are kept, as in the Rust source.
-/

namespace Pointzerver

/-- Physical key identifiers used by the backends (the subset of `rdev::Key`
exercised by the source). -/
inductive Key where
  | Space | Return | Tab | Backspace
  | Dot | Comma | SemiColon | Slash | Minus | Equal
  | LeftBracket | RightBracket | Quote | BackSlash
  | Num0 | Num1 | Num2 | Num3 | Num4 | Num5 | Num6 | Num7 | Num8 | Num9
  | KeyA | KeyB | KeyC | KeyD | KeyE | KeyF | KeyG | KeyH | KeyI | KeyJ
  | KeyK | KeyL | KeyM | KeyN | KeyO | KeyP | KeyQ | KeyR | KeyS | KeyT
  | KeyU | KeyV | KeyW | KeyX | KeyY | KeyZ
  | ControlLeft | Alt | ShiftLeft | MetaLeft
  deriving DecidableEq, Repr

/-- Mouse buttons (`rdev::Button`, the three variants the source constructs). -/
inductive Button where
  | Left | Right | Middle
  deriving DecidableEq, Repr

/-- `ModifierKeys` from `src/domain/models/command.rs`: a 4-bit modifier set. -/
structure ModifierKeys where
  ctrl : Bool
  alt : Bool
  shift : Bool
  meta : Bool
  deriving DecidableEq, Repr

/-- `ModifierKeys::default()`: all four flags false. -/
def ModifierKeys.default : ModifierKeys := ⟨false, false, false, false⟩

/-- A native event as emitted by the backend: the `rdev` events posted through
`send_event`, plus the two CoreGraphics event shapes the macOS backend posts
directly (`send_mouse_button_event` and `send_mouse_drag`). -/
inductive EventType where
  | KeyPress (key : Key)
  | KeyRelease (key : Key)
  | ButtonPress (b : Button)
  | ButtonRelease (b : Button)
  | MouseMove (x y : ℚ)
  | Wheel (delta_x delta_y : ℤ)
  | MouseDrag (x y : ℚ) (b : Option Button)
  | MouseButtonCG (x y : ℚ) (b : Button) (is_press : Bool) (click_state : ℤ)
  deriving DecidableEq, Repr

/-- `apply_modifiers` (`src/input/macos.rs:417` = `src/input/unix.rs:214`,
successful execution): diff the desired modifier set against the current one,
emitting a key event for every flag that changes, presses first, releases
second, in the fixed order ctrl, alt, shift, meta. Returns the updated state
and the emitted events in order. -/
def apply_modifiers (state modifiers : ModifierKeys) : ModifierKeys × List EventType :=
  let acc : ModifierKeys × List EventType := (state, [])
  let acc := if modifiers.ctrl && !acc.1.ctrl then
      ({ acc.1 with ctrl := true }, acc.2 ++ [EventType.KeyPress Key.ControlLeft]) else acc
  let acc := if modifiers.alt && !acc.1.alt then
      ({ acc.1 with alt := true }, acc.2 ++ [EventType.KeyPress Key.Alt]) else acc
  let acc := if modifiers.shift && !acc.1.shift then
      ({ acc.1 with shift := true }, acc.2 ++ [EventType.KeyPress Key.ShiftLeft]) else acc
  let acc := if modifiers.meta && !acc.1.meta then
      ({ acc.1 with meta := true }, acc.2 ++ [EventType.KeyPress Key.MetaLeft]) else acc
  let acc := if !modifiers.ctrl && acc.1.ctrl then
      ({ acc.1 with ctrl := false }, acc.2 ++ [EventType.KeyRelease Key.ControlLeft]) else acc
  let acc := if !modifiers.alt && acc.1.alt then
      ({ acc.1 with alt := false }, acc.2 ++ [EventType.KeyRelease Key.Alt]) else acc
  let acc := if !modifiers.shift && acc.1.shift then
      ({ acc.1 with shift := false }, acc.2 ++ [EventType.KeyRelease Key.ShiftLeft]) else acc
  let acc := if !modifiers.meta && acc.1.meta then
      ({ acc.1 with meta := false }, acc.2 ++ [EventType.KeyRelease Key.MetaLeft]) else acc
  acc

/-- Is this event a key-press event (a modifier press, in the output of
`apply_modifiers`)? -/
def isKeyPressEvent : EventType → Bool
  | .KeyPress _ => true
  | _ => false

/-- All key-press events precede all other events in the list. -/
def pressesFirst (evs : List EventType) : Bool :=
  evs = evs.filter isKeyPressEvent ++ evs.filter (fun e => !isKeyPressEvent e)

/-- Helper shared by several claims: diffing always lands exactly on the
desired modifier set. -/
theorem apply_modifiers_fst (cur des : ModifierKeys) :
    (apply_modifiers cur des).1 = des := by
  obtain ⟨c1, a1, s1, m1⟩ := cur
  obtain ⟨c2, a2, s2, m2⟩ := des
  cases c1 <;> cases a1 <;> cases s1 <;> cases m1 <;>
    cases c2 <;> cases a2 <;> cases s2 <;> cases m2 <;> rfl

/-- C1: Modifier diffing. For every current and desired modifier state,
`apply_modifiers` emits exactly one press for each modifier that is desired
but not current, exactly one release for each that is current but not desired,
no event at all for a modifier already in the desired state, all presses
before all releases, and the resulting session modifier state is exactly the
desired set. -/
theorem apply_modifiers_diff :
    ∀ c1 a1 s1 m1 c2 a2 s2 m2 : Bool,
      (apply_modifiers ⟨c1, a1, s1, m1⟩ ⟨c2, a2, s2, m2⟩).1 = ⟨c2, a2, s2, m2⟩ ∧
      (apply_modifiers ⟨c1, a1, s1, m1⟩ ⟨c2, a2, s2, m2⟩).2.count
        (EventType.KeyPress Key.ControlLeft) = (if c2 && !c1 then 1 else 0) ∧
      (apply_modifiers ⟨c1, a1, s1, m1⟩ ⟨c2, a2, s2, m2⟩).2.count
        (EventType.KeyPress Key.Alt) = (if a2 && !a1 then 1 else 0) ∧
      (apply_modifiers ⟨c1, a1, s1, m1⟩ ⟨c2, a2, s2, m2⟩).2.count
        (EventType.KeyPress Key.ShiftLeft) = (if s2 && !s1 then 1 else 0) ∧
      (apply_modifiers ⟨c1, a1, s1, m1⟩ ⟨c2, a2, s2, m2⟩).2.count
        (EventType.KeyPress Key.MetaLeft) = (if m2 && !m1 then 1 else 0) ∧
      (apply_modifiers ⟨c1, a1, s1, m1⟩ ⟨c2, a2, s2, m2⟩).2.count
        (EventType.KeyRelease Key.ControlLeft) = (if !c2 && c1 then 1 else 0) ∧
      (apply_modifiers ⟨c1, a1, s1, m1⟩ ⟨c2, a2, s2, m2⟩).2.count
        (EventType.KeyRelease Key.Alt) = (if !a2 && a1 then 1 else 0) ∧
      (apply_modifiers ⟨c1, a1, s1, m1⟩ ⟨c2, a2, s2, m2⟩).2.count
        (EventType.KeyRelease Key.ShiftLeft) = (if !s2 && s1 then 1 else 0) ∧
      (apply_modifiers ⟨c1, a1, s1, m1⟩ ⟨c2, a2, s2, m2⟩).2.count
        (EventType.KeyRelease Key.MetaLeft) = (if !m2 && m1 then 1 else 0) ∧
      (apply_modifiers ⟨c1, a1, s1, m1⟩ ⟨c2, a2, s2, m2⟩).2.length =
        ((if c2 ≠ c1 then 1 else 0) + (if a2 ≠ a1 then 1 else 0) +
         (if s2 ≠ s1 then 1 else 0) + (if m2 ≠ m1 then 1 else 0)) ∧
      pressesFirst (apply_modifiers ⟨c1, a1, s1, m1⟩ ⟨c2, a2, s2, m2⟩).2 = true := by
  decide

/-! ## Double-click classification (`next_click_count`, macos.rs:285) -/

/-- `ServerConfig::DOUBLE_CLICK_TIMEOUT_MS` (server_config.rs:14). -/
def DOUBLE_CLICK_TIMEOUT_MS : ℕ := 350

/-- `ServerConfig::MOUSE_CLICK_DELAY_MS` (server_config.rs:12). -/
def MOUSE_CLICK_DELAY_MS : ℕ := 10

/-- `ClickState` (macos.rs:29): the `last_click` record. Timestamps in ms. -/
structure ClickState where
  button : ℕ
  time : ℕ
  count : ℕ
  deriving DecidableEq, Repr

/-- `next_click_count` (macos.rs:285): classify a click on `button` at time
`now` against the previous `last_click` record, and overwrite the record.
Returns the classified count and the new record. The elapsed-time test is
`now.duration_since(previous.time) <= timeout`, i.e. inclusive. -/
def next_click_count (last_click : Option ClickState) (button : ℕ) (now : ℕ) :
    ℕ × Option ClickState :=
  let count :=
    match last_click with
    | some previous =>
        if previous.button = button ∧
            now - previous.time ≤ DOUBLE_CLICK_TIMEOUT_MS ∧
            previous.count = 1
        then 2 else 1
    | none => 1
  (count, some ⟨button, now, count⟩)

/-- C2 counterexample: at an elapsed time of exactly 350 ms — which is *not*
under the 350 ms threshold, so the claim demands count 1 — the code classifies
the click as count 2 (the source compares with `<=`, an inclusive threshold). -/
theorem next_click_count_boundary_two :
    (next_click_count (some ⟨1, 0, 1⟩) 1 350).1 = 2 ∧
      ¬ (350 - 0 < DOUBLE_CLICK_TIMEOUT_MS) := by
  decide

/-- C2 (amended): a click is classified count 2 iff a `last_click` record
exists for the same button with count exactly 1 and the elapsed time since it
is *at most* (inclusively) the 350 ms threshold; otherwise count 1.  The
classified count is always 1 or 2 (so count 2 is never followed by count 3: a
record with count ≠ 1 always classifies the next click as count 1, and a click
strictly later than 350 ms after the record also classifies as count 1), and
the `last_click` record is always overwritten with the new (button, now,
count). -/
theorem next_click_count_spec :
    ∀ (lc : Option ClickState) (button now : ℕ),
      ((next_click_count lc button now).1 = 2 ↔
        ∃ prev, lc = some prev ∧ prev.button = button ∧
          now - prev.time ≤ DOUBLE_CLICK_TIMEOUT_MS ∧ prev.count = 1) ∧
      ((next_click_count lc button now).1 = 1 ∨
        (next_click_count lc button now).1 = 2) ∧
      (∀ prev, lc = some prev → prev.count ≠ 1 →
        (next_click_count lc button now).1 = 1) ∧
      (∀ prev, lc = some prev → DOUBLE_CLICK_TIMEOUT_MS < now - prev.time →
        (next_click_count lc button now).1 = 1) ∧
      (next_click_count lc button now).2 =
        some ⟨button, now, (next_click_count lc button now).1⟩ := by
  intro lc button now
  refine ⟨?_, ?_, ?_, ?_, rfl⟩
  · cases lc with
    | none =>
        simp [next_click_count]
    | some prev =>
        simp only [next_click_count]
        split

        · rename_i h
          simp only [true_iff]
          exact ⟨prev, rfl, h.1, h.2.1, h.2.2⟩
        · rename_i h
          constructor
          · intro hc; exact absurd hc (by decide)
          · rintro ⟨p, hp, h1, h2, h3⟩
            cases hp
            exact absurd ⟨h1, h2, h3⟩ h
  · cases lc with
    | none => left; rfl
    | some prev =>
        simp only [next_click_count]
        split
        · right; rfl
        · left; rfl
  · rintro prev rfl hcount
    simp only [next_click_count]
    split
    · rename_i h; exact absurd h.2.2 hcount
    · rfl
  · rintro prev rfl hlate
    simp only [next_click_count]
    split
    · rename_i h; exact absurd h.2.1 (by omega)
    · rfl

/-- Witness for `next_click_count_spec`: a record with count 2 (or an elapsed
time of 351 ms) classifies the next click as count 1, and the record is
overwritten. -/
theorem next_click_count_spec_witness :
    (next_click_count (some ⟨1, 0, 2⟩) 1 10).1 = 1 ∧
      (next_click_count (some ⟨1, 0, 1⟩) 1 351).1 = 1 ∧
      (next_click_count (some ⟨1, 0, 1⟩) 1 351).2 = some ⟨1, 351, 1⟩ :=
  ⟨(next_click_count_spec (some ⟨1, 0, 2⟩) 1 10).2.2.1 ⟨1, 0, 2⟩ rfl (by decide),
   (next_click_count_spec (some ⟨1, 0, 1⟩) 1 351).2.2.2.1 ⟨1, 0, 1⟩ rfl (by decide),
   by decide⟩

/-! ## Session state and the drag-batching backend (macos.rs) -/

/-- `ServerConfig::FALLBACK_SCREEN_WIDTH` (server_config.rs:15). -/
def FALLBACK_SCREEN_WIDTH : ℚ := 1920

/-- `ServerConfig::FALLBACK_SCREEN_HEIGHT` (server_config.rs:16). -/
def FALLBACK_SCREEN_HEIGHT : ℚ := 1080

/-- `DRAG_BATCH_INTERVAL_MS` (macos.rs:12). -/
def DRAG_BATCH_INTERVAL_MS : ℕ := 16

/-- `DragState` (macos.rs:22): the drag accumulator. -/
structure DragState where
  pending_x : ℚ
  pending_y : ℚ
  last_flush : ℕ
  button : Option Button
  deriving DecidableEq, Repr

/-- The mutex-guarded fields of `InputHandlerImpl` (macos.rs:14), flattened
into one record (commands are processed strictly sequentially, §5 of the
spec, so the per-field mutexes introduce no interleaving to model). -/
structure SessionState where
  current_pos : Option (ℚ × ℚ)
  modifier_state : ModifierKeys
  button_state : Option Button
  last_click : Option ClickState
  drag_state : DragState
  deriving DecidableEq, Repr

/-- `map_button` (macos.rs:259): 1 → left, 2 → right, 3 → middle, anything
else falls back to left. -/
def map_button (button : ℕ) : Button :=
  match button with
  | 1 => Button.Left
  | 2 => Button.Right
  | 3 => Button.Middle
  | _ => Button.Left

/-- `resolve_pointer_position` (macos.rs:268): the last known position if
present, else the fixed fallback center, which is also stored. -/
def resolve_pointer_position (s : SessionState) : (ℚ × ℚ) × SessionState :=
  match s.current_pos with
  | some coords => (coords, s)
  | none =>
      let fallback := (FALLBACK_SCREEN_WIDTH / 2, FALLBACK_SCREEN_HEIGHT / 2)
      (fallback, { s with current_pos := some fallback })

/-- `queue_drag_event` (macos.rs:457, successful execution): add the delta to
the pending accumulator; if at least `DRAG_BATCH_INTERVAL_MS` has elapsed
since the last flush, emit one drag event carrying the absolute target
position and zero the accumulator, resetting the flush timestamp to `now`. -/
def queue_drag_event (now : ℕ) (delta_x delta_y target_x target_y : ℚ)
    (button : Option Button) (s : SessionState) : SessionState × List EventType :=
  let drag := s.drag_state
  let drag := { drag with
    pending_x := drag.pending_x + delta_x
    pending_y := drag.pending_y + delta_y }
  let should_flush := DRAG_BATCH_INTERVAL_MS ≤ now - drag.last_flush
  if should_flush then
    ({ s with drag_state :=
        { drag with pending_x := 0, pending_y := 0, last_flush := now } },
     [EventType.MouseDrag target_x target_y button])
  else
    ({ s with drag_state := drag }, [])

/-- `mouse_move` (macos.rs:69, successful execution): compute the new absolute
position from the last known position (or the fallback center), store it, and
either route through the drag path (button held) or emit an immediate move
event. -/
def mouse_move (now : ℕ) (x y : ℚ) (s : SessionState) : SessionState × List EventType :=
  let button := s.button_state
  let (new_x, new_y) :=
    match s.current_pos with
    | some (px, py) => (px + x, py + y)
    | none => (FALLBACK_SCREEN_WIDTH / 2 + x, FALLBACK_SCREEN_HEIGHT / 2 + y)
  let s := { s with current_pos := some (new_x, new_y) }
  match button with
  | some _ => queue_drag_event now x y new_x new_y button s
  | none => (s, [EventType.MouseMove new_x new_y])

/-- `flush_pending_drag` (macos.rs:485), with the success of the
`send_mouse_drag` native call made explicit as `sendDragOk`.  If any pending
delta is nonzero, resolve the pointer position and post a drag event there;
only after a successful post are the pending deltas zeroed — on an injection
failure the function returns the error with the pending deltas retained.
Returns (state, emitted events, success). -/
def flush_pending_drag (sendDragOk : Bool) (s : SessionState) :
    SessionState × List EventType × Bool :=
  let drag := s.drag_state
  if drag.pending_x ≠ 0 ∨ drag.pending_y ≠ 0 then
    let (pos, s1) := resolve_pointer_position s
    if sendDragOk then
      ({ s1 with drag_state :=
          { s1.drag_state with pending_x := 0, pending_y := 0 } },
       [EventType.MouseDrag pos.1 pos.2 drag.button], true)
    else
      (s1, [], false)
  else
    (s, [], true)

/-- `mouse_up` (macos.rs:149), with the success of the two native calls made
explicit (`sendDragOk` for the flush's drag post, `sendReleaseOk` for the
button-release post).  Flush any pending drag delta; on flush failure return
early (state mutations so far kept).  Otherwise clear the held button and the
drag accumulator, then post the release event. -/
def mouse_up (sendDragOk sendReleaseOk : Bool) (button : ℕ) (s : SessionState) :
    SessionState × List EventType × Bool :=
  let button_enum := map_button button
  let (s1, evs, ok) := flush_pending_drag sendDragOk s
  if ok then
    let s2 := { s1 with
      button_state := none
      drag_state := { s1.drag_state with pending_x := 0, pending_y := 0, button := none } }
    if sendReleaseOk then
      (s2, evs ++ [EventType.ButtonRelease button_enum], true)
    else
      (s2, evs, false)
  else
    (s1, evs, false)

/-- The absolute target position computed by `mouse_move` for a delta (x, y):
the last known position plus the delta, or the fallback center plus the
delta. -/
def move_target (s : SessionState) (x y : ℚ) : ℚ × ℚ :=
  match s.current_pos with
  | some (px, py) => (px + x, py + y)
  | none => (FALLBACK_SCREEN_WIDTH / 2 + x, FALLBACK_SCREEN_HEIGHT / 2 + y)

/-- C3: Drag batching rate and residual flush. While a button is held, every
`mouse_move` adds its delta to the pending accumulator, and that move emits a
drag event iff at least 16 ms have elapsed since the last flush (the event
carrying the absolute target position, so the batched movement is not lost);
below the interval no event is emitted and the accumulator retains the sum.
On `mouse_up` (successful execution) a nonzero pending delta is flushed
immediately — no interval condition, `mouse_up` takes no time parameter at
all — as a drag event at the last resolved pointer position, followed by the
release event. -/
theorem drag_batching_rate_and_residual_flush :
    (∀ (now : ℕ) (x y : ℚ) (s : SessionState) (b : Button),
      s.button_state = some b →
      ((mouse_move now x y s).2 ≠ [] ↔
        DRAG_BATCH_INTERVAL_MS ≤ now - s.drag_state.last_flush) ∧
      (DRAG_BATCH_INTERVAL_MS ≤ now - s.drag_state.last_flush →
        (mouse_move now x y s).2 =
          [EventType.MouseDrag (move_target s x y).1 (move_target s x y).2 (some b)] ∧
        (mouse_move now x y s).1.drag_state.pending_x = 0 ∧
        (mouse_move now x y s).1.drag_state.pending_y = 0 ∧
        (mouse_move now x y s).1.drag_state.last_flush = now) ∧
      (now - s.drag_state.last_flush < DRAG_BATCH_INTERVAL_MS →
        (mouse_move now x y s).2 = [] ∧
        (mouse_move now x y s).1.drag_state.pending_x = s.drag_state.pending_x + x ∧
        (mouse_move now x y s).1.drag_state.pending_y = s.drag_state.pending_y + y ∧
        (mouse_move now x y s).1.drag_state.last_flush = s.drag_state.last_flush)) ∧
    (∀ (b : ℕ) (s : SessionState),
      s.drag_state.pending_x ≠ 0 ∨ s.drag_state.pending_y ≠ 0 →
      (mouse_up true true b s).2.1 =
        [EventType.MouseDrag (resolve_pointer_position s).1.1
           (resolve_pointer_position s).1.2 s.drag_state.button,
         EventType.ButtonRelease (map_button b)]) := by
  constructor
  · intro now x y s b hb
    obtain ⟨cp, ms, bs, lc, ds⟩ := s
    simp only at hb
    subst hb
    by_cases h : DRAG_BATCH_INTERVAL_MS ≤ now - ds.last_flush
    · cases cp with
      | none =>
          simp [mouse_move, queue_drag_event, move_target, h, if_pos h, not_lt.mpr h]
      | some p =>
          obtain ⟨px, py⟩ := p
          simp [mouse_move, queue_drag_event, move_target, h, if_pos h, not_lt.mpr h]
    · cases cp with
      | none =>
          simp [mouse_move, queue_drag_event, move_target, h, if_neg h]
      | some p =>
          obtain ⟨px, py⟩ := p
          simp [mouse_move, queue_drag_event, move_target, h, if_neg h]
  · intro b s hnz
    simp only [mouse_up, flush_pending_drag, if_pos hnz]
    rfl

/-- Witness for `drag_batching_rate_and_residual_flush`: a held-button move
17 ms after the last flush emits the drag event at the absolute target, and a
`mouse_up` with pending delta (5, 0) flushes it at the resolved position. -/
theorem drag_batching_witness :
    (mouse_move 17 3 4
        ⟨some (100, 200), ModifierKeys.default, some Button.Left, none,
          ⟨0, 0, 0, some Button.Left⟩⟩).2 =
      [EventType.MouseDrag 103 204 (some Button.Left)] ∧
    (mouse_up true true 1
        ⟨some (100, 200), ModifierKeys.default, some Button.Left, none,
          ⟨5, 0, 0, some Button.Left⟩⟩).2.1 =
      [EventType.MouseDrag 100 200 (some Button.Left),
       EventType.ButtonRelease Button.Left] := by
  constructor
  · have h := ((drag_batching_rate_and_residual_flush.1 17 3 4
      ⟨some (100, 200), ModifierKeys.default, some Button.Left, none,
        ⟨0, 0, 0, some Button.Left⟩⟩ Button.Left rfl).2.1 (by decide)).1
    norm_num [move_target] at h
    exact h
  · exact drag_batching_rate_and_residual_flush.2 1
      ⟨some (100, 200), ModifierKeys.default, some Button.Left, none,
        ⟨5, 0, 0, some Button.Left⟩⟩ (Or.inl (by decide))

/-- C4 counterexample: a `mouse_up` whose internal flush fails to inject the
drag event ends early with the pending delta retained — here pending_x stays
5 ≠ 0, contradicting the claim that the accumulator is zero after a MouseUp
even when the path ends early on an injection failure. -/
theorem mouse_up_failed_flush_retains_pending :
    (mouse_up false true 1
        ⟨some (100, 200), ModifierKeys.default, some Button.Left, none,
          ⟨5, 0, 0, some Button.Left⟩⟩).2.2 = false ∧
      (mouse_up false true 1
          ⟨some (100, 200), ModifierKeys.default, some Button.Left, none,
            ⟨5, 0, 0, some Button.Left⟩⟩).1.drag_state.pending_x = 5 := by
  decide

/-- C4 (amended): immediately after any flush whose drag-event injection
succeeds — a `queue_drag_event` flush, a successful `flush_pending_drag`, or
a `mouse_up` whose internal flush succeeds (whether or not the final release
injection succeeds) — both pending drag deltas are zero.  But when the flush
inside `mouse_up` fails to inject its event, `mouse_up` ends early and the
nonzero pending delta is retained, not zeroed. -/
theorem drag_accumulator_zero_after_success :
    ∀ (s : SessionState) (relOk : Bool) (b now : ℕ) (dx dy tx ty : ℚ)
      (btn : Option Button),
      ((flush_pending_drag true s).1.drag_state.pending_x = 0 ∧
        (flush_pending_drag true s).1.drag_state.pending_y = 0) ∧
      ((mouse_up true relOk b s).1.drag_state.pending_x = 0 ∧
        (mouse_up true relOk b s).1.drag_state.pending_y = 0) ∧
      (DRAG_BATCH_INTERVAL_MS ≤ now - s.drag_state.last_flush →
        (queue_drag_event now dx dy tx ty btn s).1.drag_state.pending_x = 0 ∧
        (queue_drag_event now dx dy tx ty btn s).1.drag_state.pending_y = 0) ∧
      ((s.drag_state.pending_x ≠ 0 ∨ s.drag_state.pending_y ≠ 0) →
        (mouse_up false relOk b s).1.drag_state = s.drag_state ∧
        (mouse_up false relOk b s).2.2 = false) := by
  intro s relOk b now dx dy tx ty btn
  refine ⟨?_, ?_, ?_, ?_⟩
  · simp only [flush_pending_drag]
    split
    · exact ⟨rfl, rfl⟩
    · rename_i h
      push_neg at h
      exact ⟨h.1, h.2⟩
  · simp only [mouse_up, flush_pending_drag]
    split
    · cases relOk <;> exact ⟨rfl, rfl⟩
    · rename_i h
      cases relOk <;> exact ⟨rfl, rfl⟩
  · intro h
    simp [queue_drag_event, h]
  · intro hnz
    simp only [mouse_up, flush_pending_drag, if_pos hnz]
    cases hc : s.current_pos with
    | some p => simp [resolve_pointer_position, hc]
    | none => simp [resolve_pointer_position, hc]

/-- Witness for `drag_accumulator_zero_after_success`: with pending delta
(5, 0), a successful flush zeroes the accumulator, a flush-time queue zeroes
it, and a failed flush inside `mouse_up` retains it. -/
theorem drag_accumulator_zero_witness :
    (flush_pending_drag true
        ⟨some (100, 200), ModifierKeys.default, some Button.Left, none,
          ⟨5, 0, 0, some Button.Left⟩⟩).1.drag_state.pending_x = 0 ∧
    (queue_drag_event 20 1 2 101 202 (some Button.Left)
        ⟨some (100, 200), ModifierKeys.default, some Button.Left, none,
          ⟨5, 0, 0, some Button.Left⟩⟩).1.drag_state.pending_x = 0 ∧
    (mouse_up false true 1
        ⟨some (100, 200), ModifierKeys.default, some Button.Left, none,
          ⟨5, 0, 0, some Button.Left⟩⟩).1.drag_state =
      (⟨5, 0, 0, some Button.Left⟩ : DragState) :=
  ⟨(drag_accumulator_zero_after_success
      ⟨some (100, 200), ModifierKeys.default, some Button.Left, none,
        ⟨5, 0, 0, some Button.Left⟩⟩ true 1 20 1 2 101 202 (some Button.Left)).1.1,
   ((drag_accumulator_zero_after_success
      ⟨some (100, 200), ModifierKeys.default, some Button.Left, none,
        ⟨5, 0, 0, some Button.Left⟩⟩ true 1 20 1 2 101 202
        (some Button.Left)).2.2.1 (by decide)).1,
   ((drag_accumulator_zero_after_success
      ⟨some (100, 200), ModifierKeys.default, some Button.Left, none,
        ⟨5, 0, 0, some Button.Left⟩⟩ true 1 20 1 2 101 202
        (some Button.Left)).2.2.2 (Or.inl (by decide))).1⟩

/-! ## Key mapping (`string_to_key`, macos.rs:528 = unix.rs:256) -/

/-- `char::is_ascii_alphabetic`. -/
def is_ascii_alphabetic (c : Char) : Bool :=
  (65 ≤ c.toNat && c.toNat ≤ 90) || (97 ≤ c.toNat && c.toNat ≤ 122)

/-- `char::is_ascii_digit`. -/
def is_ascii_digit (c : Char) : Bool :=
  48 ≤ c.toNat && c.toNat ≤ 57

/-- `char::to_ascii_uppercase`. -/
def to_ascii_uppercase (c : Char) : Char :=
  if 97 ≤ c.toNat && c.toNat ≤ 122 then Char.ofNat (c.toNat - 32) else c

/-- The letter arm of `string_to_key`'s length-1 branch: match the
ASCII-uppercased character against the 26 letter keys. -/
def letter_to_key (c : Char) : Option Key :=
  match c with
  | 'A' => some Key.KeyA
  | 'B' => some Key.KeyB
  | 'C' => some Key.KeyC
  | 'D' => some Key.KeyD
  | 'E' => some Key.KeyE
  | 'F' => some Key.KeyF
  | 'G' => some Key.KeyG
  | 'H' => some Key.KeyH
  | 'I' => some Key.KeyI
  | 'J' => some Key.KeyJ
  | 'K' => some Key.KeyK
  | 'L' => some Key.KeyL
  | 'M' => some Key.KeyM
  | 'N' => some Key.KeyN
  | 'O' => some Key.KeyO
  | 'P' => some Key.KeyP
  | 'Q' => some Key.KeyQ
  | 'R' => some Key.KeyR
  | 'S' => some Key.KeyS
  | 'T' => some Key.KeyT
  | 'U' => some Key.KeyU
  | 'V' => some Key.KeyV
  | 'W' => some Key.KeyW
  | 'X' => some Key.KeyX
  | 'Y' => some Key.KeyY
  | 'Z' => some Key.KeyZ
  | _ => none

/-- The digit arm of `string_to_key`'s length-1 branch. -/
def digit_to_key (c : Char) : Option Key :=
  match c with
  | '0' => some Key.Num0
  | '1' => some Key.Num1
  | '2' => some Key.Num2
  | '3' => some Key.Num3
  | '4' => some Key.Num4
  | '5' => some Key.Num5
  | '6' => some Key.Num6
  | '7' => some Key.Num7
  | '8' => some Key.Num8
  | '9' => some Key.Num9
  | _ => none

/-- The body of `string_to_key` for a single character: the fixed
punctuation/control table, then the guarded letter/digit branch. -/
def char_to_key (c : Char) : Option Key :=
  match c with
  | ' ' => some Key.Space
  | '\n' => some Key.Return
  | '\r' => some Key.Return
  | '\t' => some Key.Tab
  | '\x08' => some Key.Backspace
  | '\x7f' => some Key.Backspace
  | '.' => some Key.Dot
  | ',' => some Key.Comma
  | ';' => some Key.SemiColon
  | ':' => some Key.SemiColon
  | '!' => some Key.Num1
  | '?' => some Key.Slash
  | '-' => some Key.Minus
  | '_' => some Key.Minus
  | '=' => some Key.Equal
  | '+' => some Key.Equal
  | '[' => some Key.LeftBracket
  | ']' => some Key.RightBracket
  | '\x7b' => some Key.LeftBracket
  | '\x7d' => some Key.RightBracket
  | '(' => some Key.Num9
  | ')' => some Key.Num0
  | '\'' => some Key.Quote
  | '"' => some Key.Quote
  | '\\' => some Key.BackSlash
  | '|' => some Key.BackSlash
  | '/' => some Key.Slash
  | '<' => some Key.Comma
  | '>' => some Key.Dot
  | ch =>
      if is_ascii_alphabetic ch then
        letter_to_key (to_ascii_uppercase ch)
      else if is_ascii_digit ch then
        digit_to_key ch
      else
        none

/-- `string_to_key` (macos.rs:528, identical in unix.rs:256), with the input
string as its character list.  Every literal pattern of the source match is a
single one-byte character, so the source's table-plus-byte-length-1-guard
structure coincides with this one-element-list split over `char_to_key` (and
in the guarded branch, non-ASCII characters fall through to `None` in both
readings, so the byte-length/char-length distinction is immaterial). -/
def string_to_key (s : List Char) : Option Key :=
  match s with
  | [c] => char_to_key c
  | _ => none

/-- The lowercase ASCII letters. -/
def lowercase_letters : List Char :=
  "abcdefghijklmnopqrstuvwxyz".toList

/-- C6: Key mapping facts. `'a'` (and `'A'`) map to the letter-A key — and
every lowercase letter maps to the same key as its uppercase form — `'1'`
maps to the digit-1 key, `'!'` to the same physical key as `'1'`, `' '` to
the space key, `'<'` to the same physical key as `','`, `"F13"` has no
mapping, and in general every string whose length is not 1 has no mapping
(every entry of the punctuation/control table is a single character). -/
theorem string_to_key_spec :
    string_to_key ['a'] = some Key.KeyA ∧
    string_to_key ['A'] = some Key.KeyA ∧
    (∀ c ∈ lowercase_letters,
      string_to_key [c] = string_to_key [to_ascii_uppercase c]) ∧
    string_to_key ['1'] = some Key.Num1 ∧
    string_to_key ['!'] = some Key.Num1 ∧
    string_to_key ['!'] = string_to_key ['1'] ∧
    string_to_key [' '] = some Key.Space ∧
    string_to_key ['<'] = string_to_key [','] ∧
    string_to_key ('F' :: '1' :: '3' :: []) = none ∧
    (∀ s : List Char, s.length ≠ 1 → string_to_key s = none) := by
  refine ⟨rfl, rfl, by decide, rfl, rfl, rfl, rfl, rfl, rfl, ?_⟩
  intro s h
  match s with
  | [] => rfl
  | [c] => exact absurd rfl h
  | a :: b :: t => rfl

/-- Witness for `string_to_key_spec`: its quantified parts applied to the
concrete inputs `'x'` (a lowercase letter) and the two-character string
`"ab"`. -/
theorem string_to_key_spec_witness :
    string_to_key ['x'] = string_to_key [to_ascii_uppercase 'x'] ∧
      string_to_key ['a', 'b'] = none :=
  ⟨string_to_key_spec.2.2.1 'x' (by decide),
   string_to_key_spec.2.2.2.2.2.2.2.2.2 ['a', 'b'] (by decide)⟩

/-! ## Key press/release and explicit modifier commands -/

/-- `key_press` (macos.rs:187 = unix.rs:146, successful execution): first
reconcile the session modifier state against the command's desired set by
modifier diffing, then emit a key-press event if the key name maps. -/
def key_press (key : List Char) (modifiers : ModifierKeys) (s : SessionState) :
    SessionState × List EventType :=
  let diffed := apply_modifiers s.modifier_state modifiers
  let s := { s with modifier_state := diffed.1 }
  match string_to_key key with
  | some key_enum => (s, diffed.2 ++ [EventType.KeyPress key_enum])
  | none => (s, diffed.2)

/-- `key_release` (macos.rs:196 = unix.rs:155 = windows.rs:183, successful
execution): emit a key-release event if the key name maps; the modifiers
argument is received but never read (`_modifiers` in all three backends). -/
def key_release (key : List Char) (_modifiers : ModifierKeys) (s : SessionState) :
    SessionState × List EventType :=
  match string_to_key key with
  | some key_enum => (s, [EventType.KeyRelease key_enum])
  | none => (s, [])

/-- Rust `str::to_lowercase` restricted to its ASCII action (the alias table
this feeds is all-ASCII, and no ASCII character arises as the Unicode
lowercasing of another ASCII character, so the restriction is faithful on
every input that can reach a table arm). -/
def to_lowercase (s : List Char) : List Char :=
  s.map Char.toLower

/-- `modifier_press` (macos.rs:203 = unix.rs:162, successful execution):
case-insensitive alias match; on a hit, unconditionally set the modifier bit
and emit the key-down; on a miss, fall through silently. -/
def modifier_press (modifier : List Char) (s : SessionState) :
    SessionState × List EventType :=
  let m := to_lowercase modifier
  if m = "ctrl".toList ∨ m = "control".toList then
    ({ s with modifier_state := { s.modifier_state with ctrl := true } },
     [EventType.KeyPress Key.ControlLeft])
  else if m = "alt".toList then
    ({ s with modifier_state := { s.modifier_state with alt := true } },
     [EventType.KeyPress Key.Alt])
  else if m = "shift".toList then
    ({ s with modifier_state := { s.modifier_state with shift := true } },
     [EventType.KeyPress Key.ShiftLeft])
  else if m = "meta".toList ∨ m = "super".toList ∨ m = "cmd".toList then
    ({ s with modifier_state := { s.modifier_state with meta := true } },
     [EventType.KeyPress Key.MetaLeft])
  else
    (s, [])

/-- `modifier_release` (macos.rs:230 = unix.rs:187, successful execution):
the mirror image of `modifier_press` with the bit cleared and key-up
emitted. -/
def modifier_release (modifier : List Char) (s : SessionState) :
    SessionState × List EventType :=
  let m := to_lowercase modifier
  if m = "ctrl".toList ∨ m = "control".toList then
    ({ s with modifier_state := { s.modifier_state with ctrl := false } },
     [EventType.KeyRelease Key.ControlLeft])
  else if m = "alt".toList then
    ({ s with modifier_state := { s.modifier_state with alt := false } },
     [EventType.KeyRelease Key.Alt])
  else if m = "shift".toList then
    ({ s with modifier_state := { s.modifier_state with shift := false } },
     [EventType.KeyRelease Key.ShiftLeft])
  else if m = "meta".toList ∨ m = "super".toList ∨ m = "cmd".toList then
    ({ s with modifier_state := { s.modifier_state with meta := false } },
     [EventType.KeyRelease Key.MetaLeft])
  else
    (s, [])

/-- C5: Key-release modifier independence. For every key name and every pair
of modifier sets, `key_release` returns the very same result; it never changes
any session state (in particular `modifier_state`); and the only event it can
emit is the key-release event for the mapped key, nothing when the key does
not map. -/
theorem key_release_modifier_independent :
    ∀ (key : List Char) (m1 m2 : ModifierKeys) (s : SessionState),
      key_release key m1 s = key_release key m2 s ∧
      (key_release key m1 s).1 = s ∧
      (key_release key m1 s).2 =
        (match string_to_key key with
         | some k => [EventType.KeyRelease k]
         | none => []) := by
  intro key m1 m2 s
  cases h : string_to_key key <;> simp [key_release, h]

/-- C9: For every key name with no mapping and every modifier set, `key_press`
still performs modifier diffing first: the session modifier state becomes
exactly the requested set, the emitted events are exactly the diffing events
(so no key event), and no other session field changes. -/
theorem key_press_unmapped_applies_modifiers :
    ∀ (key : List Char) (m : ModifierKeys) (s : SessionState),
      string_to_key key = none →
      (key_press key m s).1 = { s with modifier_state := m } ∧
      (key_press key m s).2 = (apply_modifiers s.modifier_state m).2 := by
  intro key m s h
  simp [key_press, h, apply_modifiers_fst]

/-- Witness for `key_press_unmapped_applies_modifiers`: pressing the unmapped
key `"F13"` with ctrl requested from an all-released session sets ctrl and
emits exactly the ctrl key-down, no key event. -/
theorem key_press_unmapped_witness :
    (key_press ('F' :: '1' :: '3' :: []) ⟨true, false, false, false⟩
        ⟨none, ModifierKeys.default, none, none, ⟨0, 0, 0, none⟩⟩).1.modifier_state =
      ⟨true, false, false, false⟩ ∧
    (key_press ('F' :: '1' :: '3' :: []) ⟨true, false, false, false⟩
        ⟨none, ModifierKeys.default, none, none, ⟨0, 0, 0, none⟩⟩).2 =
      [EventType.KeyPress Key.ControlLeft] := by
  have h := key_press_unmapped_applies_modifiers ('F' :: '1' :: '3' :: [])
    ⟨true, false, false, false⟩
    ⟨none, ModifierKeys.default, none, none, ⟨0, 0, 0, none⟩⟩ (by decide)
  refine ⟨by rw [h.1], by rw [h.2]; decide⟩

/-- C10: For every modifier name that lowercases to none of the recognized
aliases (ctrl, control, alt, shift, meta, super, cmd), both `modifier_press`
and `modifier_release` are no-ops returning success: no event, state
untouched. -/
theorem modifier_unknown_name_noop :
    ∀ (modifier : List Char) (s : SessionState),
      to_lowercase modifier ∉
        ["ctrl".toList, "control".toList, "alt".toList, "shift".toList,
         "meta".toList, "super".toList, "cmd".toList] →
      modifier_press modifier s = (s, []) ∧
      modifier_release modifier s = (s, []) := by
  intro modifier s h
  simp only [List.mem_cons, List.mem_singleton, not_or] at h
  obtain ⟨h1, h2, h3, h4, h5, h6, h7, -⟩ := h
  constructor
  · show modifier_press modifier s = (s, [])
    unfold modifier_press
    rw [if_neg (not_or.mpr ⟨h1, h2⟩), if_neg h3, if_neg h4,
        if_neg (not_or.mpr ⟨h5, not_or.mpr ⟨h6, h7⟩⟩)]
  · show modifier_release modifier s = (s, [])
    unfold modifier_release
    rw [if_neg (not_or.mpr ⟨h1, h2⟩), if_neg h3, if_neg h4,
        if_neg (not_or.mpr ⟨h5, not_or.mpr ⟨h6, h7⟩⟩)]

/-- Witness for `modifier_unknown_name_noop`: the unrecognized name
`"Hyper"` leaves an all-pressed session untouched and emits nothing. -/
theorem modifier_unknown_name_noop_witness :
    modifier_press ("Hyper".toList)
        ⟨none, ⟨true, true, true, true⟩, none, none, ⟨0, 0, 0, none⟩⟩ =
      (⟨none, ⟨true, true, true, true⟩, none, none, ⟨0, 0, 0, none⟩⟩, []) ∧
    modifier_release ("Hyper".toList)
        ⟨none, ⟨true, true, true, true⟩, none, none, ⟨0, 0, 0, none⟩⟩ =
      (⟨none, ⟨true, true, true, true⟩, none, none, ⟨0, 0, 0, none⟩⟩, []) :=
  modifier_unknown_name_noop ("Hyper".toList)
    ⟨none, ⟨true, true, true, true⟩, none, none, ⟨0, 0, 0, none⟩⟩ (by decide)

/-! ## Command wire model and decoding (command.rs, command_service.rs) -/

/-- A parsed JSON document (the `serde_json` value a datagram's bytes parse
to; a buffer that is not valid JSON fails before reaching the command
decoder).  Numbers keep serde_json's integer/float distinction. -/
inductive Json where
  | null
  | bool (b : Bool)
  | numInt (n : ℤ)
  | numFloat (q : ℚ)
  | str (s : String)
  | arr (elems : List Json)
  | obj (fields : List (String × Json))

/-- `Command` (command.rs:22): the closed variant set of input actions. -/
inductive Command where
  | MouseMove (x y : ℚ)
  | MouseClick (button : ℕ)
  | MouseDown (button : ℕ)
  | MouseUp (button : ℕ)
  | MouseScroll (delta_x delta_y : ℚ)
  | KeyPress (key : String) (modifiers : ModifierKeys)
  | KeyRelease (key : String) (modifiers : ModifierKeys)
  | ModifierPress (modifier : String)
  | ModifierRelease (modifier : String)
  deriving DecidableEq, Repr

/-- Look up a field of a JSON object. -/
def find_field (fields : List (String × Json)) (name : String) : Option Json :=
  match fields with
  | [] => none
  | (k, v) :: rest => if k = name then some v else find_field rest name

/-- Deserialize an `f64`: any JSON number (serde_json widens integers). -/
def as_f64 : Json → Option ℚ
  | .numInt n => some (n : ℚ)
  | .numFloat q => some q
  | _ => none

/-- Deserialize a `u8`: a JSON integer in 0..=255; floats and everything
else are a type mismatch. -/
def as_u8 : Json → Option ℕ
  | .numInt n => if 0 ≤ n ∧ n ≤ 255 then some n.toNat else none
  | _ => none

/-- Deserialize a `bool`. -/
def as_bool : Json → Option Bool
  | .bool b => some b
  | _ => none

/-- Deserialize a `String`. -/
def as_string : Json → Option String
  | .str s => some s
  | _ => none

/-- A `bool` field of `ModifierKeys`, each marked `#[serde(default)]`
(command.rs:9–16): absent means false, present must be a bool. -/
def field_bool_default (fields : List (String × Json)) (name : String) :
    Option Bool :=
  match find_field fields name with
  | none => some false
  | some j => as_bool j

/-- Deserialize `ModifierKeys` (command.rs:8): an object whose four flag
fields each default to false when absent. -/
def decode_modifier_keys : Json → Option ModifierKeys
  | .obj fields => do
      let c ← field_bool_default fields "ctrl"
      let a ← field_bool_default fields "alt"
      let sh ← field_bool_default fields "shift"
      let m ← field_bool_default fields "meta"
      some ⟨c, a, sh, m⟩
  | _ => none

/-- The `modifiers` field of KeyPress/KeyRelease, marked `#[serde(default)]`
(command.rs:28–29): absent means `ModifierKeys::default()` (all false). -/
def field_modifiers_default (fields : List (String × Json)) :
    Option ModifierKeys :=
  match find_field fields "modifiers" with
  | none => some ModifierKeys.default
  | some j => decode_modifier_keys j

/-- Deserialize a `Command` (command.rs:20): internally tagged by the string
field `type` (`#[serde(tag = "type")]`); an unknown tag, a missing required
field, or a required field of the wrong type all fail; extraneous fields are
ignored (serde's default). -/
def decode_command (j : Json) : Option Command :=
  match j with
  | .obj fields =>
      match find_field fields "type" with
      | some (.str tag) =>
          if tag = "MouseMove" then do
            let x ← (find_field fields "x").bind as_f64
            let y ← (find_field fields "y").bind as_f64
            some (Command.MouseMove x y)
          else if tag = "MouseClick" then do
            let b ← (find_field fields "button").bind as_u8
            some (Command.MouseClick b)
          else if tag = "MouseDown" then do
            let b ← (find_field fields "button").bind as_u8
            some (Command.MouseDown b)
          else if tag = "MouseUp" then do
            let b ← (find_field fields "button").bind as_u8
            some (Command.MouseUp b)
          else if tag = "MouseScroll" then do
            let dx ← (find_field fields "delta_x").bind as_f64
            let dy ← (find_field fields "delta_y").bind as_f64
            some (Command.MouseScroll dx dy)
          else if tag = "KeyPress" then do
            let k ← (find_field fields "key").bind as_string
            let m ← field_modifiers_default fields
            some (Command.KeyPress k m)
          else if tag = "KeyRelease" then do
            let k ← (find_field fields "key").bind as_string
            let m ← field_modifiers_default fields
            some (Command.KeyRelease k m)
          else if tag = "ModifierPress" then do
            let m ← (find_field fields "modifier").bind as_string
            some (Command.ModifierPress m)
          else if tag = "ModifierRelease" then do
            let m ← (find_field fields "modifier").bind as_string
            some (Command.ModifierRelease m)
          else
            none
      | _ => none
  | _ => none

/-- The nine recognized type tags, in declaration order. -/
def command_tags : List String :=
  ["MouseMove", "MouseClick", "MouseDown", "MouseUp", "MouseScroll",
   "KeyPress", "KeyRelease", "ModifierPress", "ModifierRelease"]

/-- The expected shape of a required command field. -/
inductive FieldTy where
  | f64 | u8 | str
  deriving DecidableEq, Repr

/-- Does a JSON value have the given required-field shape? -/
def field_ty_ok (ty : FieldTy) (j : Json) : Bool :=
  match ty with
  | .f64 => (as_f64 j).isSome
  | .u8 => (as_u8 j).isSome
  | .str => (as_string j).isSome

/-- The required fields of each command variant, with their shapes (the
`modifiers` field is optional and therefore not listed). -/
def required_fields (tag : String) : List (String × FieldTy) :=
  if tag = "MouseMove" then [("x", .f64), ("y", .f64)]
  else if tag = "MouseClick" then [("button", .u8)]
  else if tag = "MouseDown" then [("button", .u8)]
  else if tag = "MouseUp" then [("button", .u8)]
  else if tag = "MouseScroll" then [("delta_x", .f64), ("delta_y", .f64)]
  else if tag = "KeyPress" then [("key", .str)]
  else if tag = "KeyRelease" then [("key", .str)]
  else if tag = "ModifierPress" then [("modifier", .str)]
  else if tag = "ModifierRelease" then [("modifier", .str)]
  else []

/-- The body of `CommandService::run` (command_service.rs:28) for one received
datagram: a failed receive or a failed decode dispatches nothing; a decoded
command is dispatched.  `none` models both an unreadable datagram and a
buffer whose bytes do not decode to a `Command`. -/
def dirun_step (datagram : Option Json) : List Command :=
  match datagram with
  | some j =>
      match decode_command j with
      | some command => [command]
      | none => []
  | none => []

/-- `CommandService::run` (command_service.rs:25) over a finite prefix of the
datagram stream: the loop handles each datagram in arrival order and always
continues to the next one. -/
def dirun_loop (datagrams : List (Option Json)) : List Command :=
  (datagrams.map dirun_step).flatten

/-- Helper: a required f64 field that is missing or ill-shaped yields no
value. -/
theorem find_bind_f64_none {fields : List (String × Json)} {name : String}
    (h : ∀ j, find_field fields name = some j → field_ty_ok .f64 j = false) :
    (find_field fields name).bind as_f64 = none := by
  cases hx : find_field fields name with
  | none => rfl
  | some j =>
      cases ho : as_f64 j with
      | none => simp [Option.bind, ho]
      | some v =>
          have hk := h j hx
          simp [field_ty_ok, ho] at hk

/-- Helper: a required u8 field that is missing or ill-shaped yields no
value. -/
theorem find_bind_u8_none {fields : List (String × Json)} {name : String}
    (h : ∀ j, find_field fields name = some j → field_ty_ok .u8 j = false) :
    (find_field fields name).bind as_u8 = none := by
  cases hx : find_field fields name with
  | none => rfl
  | some j =>
      cases ho : as_u8 j with
      | none => simp [Option.bind, ho]
      | some v =>
          have hk := h j hx
          simp [field_ty_ok, ho] at hk

/-- Helper: a required string field that is missing or ill-shaped yields no
value. -/
theorem find_bind_str_none {fields : List (String × Json)} {name : String}
    (h : ∀ j, find_field fields name = some j → field_ty_ok .str j = false) :
    (find_field fields name).bind as_string = none := by
  cases hx : find_field fields name with
  | none => rfl
  | some j =>
      cases ho : as_string j with
      | none => simp [Option.bind, ho]
      | some v =>
          have hk := h j hx
          simp [field_ty_ok, ho] at hk

/-- C7: Decode default. Every KeyPress (and KeyRelease) JSON object carrying
its required `key` string but no `modifiers` field decodes successfully, and
the decoded command's modifier set is all-false. -/
theorem decode_missing_modifiers_default :
    ∀ (fields : List (String × Json)) (key : String),
      find_field fields "modifiers" = none →
      find_field fields "key" = some (.str key) →
      (find_field fields "type" = some (.str "KeyPress") →
        decode_command (.obj fields) =
          some (Command.KeyPress key ModifierKeys.default)) ∧
      (find_field fields "type" = some (.str "KeyRelease") →
        decode_command (.obj fields) =
          some (Command.KeyRelease key ModifierKeys.default)) := by
  intro fields key hmod hkey
  constructor <;> intro ht <;>
    simp [decode_command, ht, hkey, hmod, field_modifiers_default, as_string,
      Option.bind]

/-- Witness for `decode_missing_modifiers_default`: the concrete payload
`obj [type ↦ "KeyPress", key ↦ "a"]` decodes to a KeyPress with all four
modifier flags false. -/
theorem decode_missing_modifiers_default_witness :
    decode_command (.obj [("type", .str "KeyPress"), ("key", .str "a")]) =
      some (Command.KeyPress "a" ModifierKeys.default) :=
  (decode_missing_modifiers_default
    [("type", .str "KeyPress"), ("key", .str "a")] "a" rfl rfl).1 rfl

/-- C8: Decode failure handling. (1) An object whose `type` tag is not one of
the nine recognized tags does not decode. (2) For a recognized tag, if any of
its required fields is missing from the object or present with the wrong
shape, the object does not decode. (3) A datagram that fails to decode
dispatches nothing. (4) The receive loop simply continues past such a
datagram: the commands dispatched around it are exactly those of the
surrounding stream. -/
theorem decode_failure_drops_datagram :
    (∀ (fields : List (String × Json)) (tag : String),
      find_field fields "type" = some (.str tag) →
      tag ∉ command_tags →
      decode_command (.obj fields) = none) ∧
    (∀ (fields : List (String × Json)) (tag name : String) (ty : FieldTy),
      find_field fields "type" = some (.str tag) →
      (name, ty) ∈ required_fields tag →
      (∀ j, find_field fields name = some j → field_ty_ok ty j = false) →
      decode_command (.obj fields) = none) ∧
    (∀ j : Json, decode_command j = none → dirun_step (some j) = []) ∧
    (∀ (pre post : List (Option Json)) (bad : Option Json),
      dirun_step bad = [] →
      dirun_loop (pre ++ bad :: post) = dirun_loop pre ++ dirun_loop post) := by
  refine ⟨?_, ?_, ?_, ?_⟩
  · intro fields tag ht hmem
    simp only [command_tags, List.mem_cons, List.not_mem_nil, or_false,
      not_or] at hmem
    obtain ⟨n1, n2, n3, n4, n5, n6, n7, n8, n9⟩ := hmem
    simp only [decode_command, ht]
    rw [if_neg n1, if_neg n2, if_neg n3, if_neg n4, if_neg n5, if_neg n6,
      if_neg n7, if_neg n8, if_neg n9]
  · intro fields tag name ty ht hmem hbad
    by_cases e1 : tag = "MouseMove"
    · subst e1
      simp only [decode_command, ht]
      simp [required_fields, Prod.mk.injEq] at hmem
      rcases hmem with ⟨rfl, rfl⟩ | ⟨rfl, rfl⟩
      · simp [find_bind_f64_none hbad]
      · cases hx : find_field fields "x" with
        | none => simp [hx]
        | some jx =>
            cases ho : as_f64 jx <;> simp [hx, ho, find_bind_f64_none hbad]
    by_cases e2 : tag = "MouseClick"
    · subst e2
      simp only [decode_command, ht]
      simp [required_fields, Prod.mk.injEq] at hmem
      obtain ⟨rfl, rfl⟩ := hmem
      simp [find_bind_u8_none hbad]
    by_cases e3 : tag = "MouseDown"
    · subst e3
      simp only [decode_command, ht]
      simp [required_fields, Prod.mk.injEq] at hmem
      obtain ⟨rfl, rfl⟩ := hmem
      simp [find_bind_u8_none hbad]
    by_cases e4 : tag = "MouseUp"
    · subst e4
      simp only [decode_command, ht]
      simp [required_fields, Prod.mk.injEq] at hmem
      obtain ⟨rfl, rfl⟩ := hmem
      simp [find_bind_u8_none hbad]
    by_cases e5 : tag = "MouseScroll"
    · subst e5
      simp only [decode_command, ht]
      simp [required_fields, Prod.mk.injEq] at hmem
      rcases hmem with ⟨rfl, rfl⟩ | ⟨rfl, rfl⟩
      · simp [find_bind_f64_none hbad]
      · cases hx : find_field fields "delta_x" with
        | none => simp [hx]
        | some jx =>
            cases ho : as_f64 jx <;> simp [hx, ho, find_bind_f64_none hbad]
    by_cases e6 : tag = "KeyPress"
    · subst e6
      simp only [decode_command, ht]
      simp [required_fields, Prod.mk.injEq] at hmem
      obtain ⟨rfl, rfl⟩ := hmem
      simp [find_bind_str_none hbad]
    by_cases e7 : tag = "KeyRelease"
    · subst e7
      simp only [decode_command, ht]
      simp [required_fields, Prod.mk.injEq] at hmem
      obtain ⟨rfl, rfl⟩ := hmem
      simp [find_bind_str_none hbad]
    by_cases e8 : tag = "ModifierPress"
    · subst e8
      simp only [decode_command, ht]
      simp [required_fields, Prod.mk.injEq] at hmem
      obtain ⟨rfl, rfl⟩ := hmem
      simp [find_bind_str_none hbad]
    by_cases e9 : tag = "ModifierRelease"
    · subst e9
      simp only [decode_command, ht]
      simp [required_fields, Prod.mk.injEq] at hmem
      obtain ⟨rfl, rfl⟩ := hmem
      simp [find_bind_str_none hbad]
    simp only [required_fields, if_neg e1, if_neg e2, if_neg e3, if_neg e4,
      if_neg e5, if_neg e6, if_neg e7, if_neg e8, if_neg e9,
      List.not_mem_nil] at hmem
  · intro j h
    simp [dirun_step, h]
  · intro pre post bad h
    simp [dirun_loop, h]

/-- Witness for `decode_failure_drops_datagram`: the unknown tag `"Bogus"`
fails to decode, a MouseClick whose `button` field is a string fails to
decode, and a stream containing the bogus datagram between two good ones
dispatches exactly the two good commands. -/
theorem decode_failure_drops_datagram_witness :
    decode_command (.obj [("type", .str "Bogus")]) = none ∧
    decode_command (.obj [("type", .str "MouseClick"), ("button", .str "x")]) =
      none ∧
    dirun_loop
        ([some (.obj [("type", .str "MouseMove"), ("x", .numInt 1), ("y", .numInt 2)])] ++
          some (.obj [("type", .str "Bogus")]) ::
            [some (.obj [("type", .str "MouseClick"), ("button", .numInt 1)])]) =
      dirun_loop
          [some (.obj [("type", .str "MouseMove"), ("x", .numInt 1), ("y", .numInt 2)])] ++
        dirun_loop
          [some (.obj [("type", .str "MouseClick"), ("button", .numInt 1)])] :=
  ⟨decode_failure_drops_datagram.1 [("type", .str "Bogus")] "Bogus" rfl (by decide),
   decode_failure_drops_datagram.2.1 [("type", .str "MouseClick"), ("button", .str "x")]
     "MouseClick" "button" .u8 rfl (by decide)
     (fun j hj => by cases hj; rfl),
   decode_failure_drops_datagram.2.2.2
     [some (.obj [("type", .str "MouseMove"), ("x", .numInt 1), ("y", .numInt 2)])]
     [some (.obj [("type", .str "MouseClick"), ("button", .numInt 1)])]
     (some (.obj [("type", .str "Bogus")]))
     (by
       have h1 := decode_failure_drops_datagram.1 [("type", .str "Bogus")] "Bogus"
         rfl (by decide)
       have h2 := decode_failure_drops_datagram.2.2.1 _ h1
       exact h2)⟩

end Pointzerver
